import Mathlib

/-!
Verification of the disco-hangman renderer and game flow.

The Python source (`src/main.py`, final iteration, with `src/hangman.py` an
earlier iteration sharing the game-flow functions) is shallowly embedded:
pure functions become Lean functions, Python floats are idealized as real
numbers, fallible operations (list indexing) return `Except`.
-/

/- ### Data model (from `src/main.py`) -/

/-- A finished game's record (`GameResult` dataclass). -/
structure GameResult where
  name : String
  word : String
  won : Bool
  guesses : ℤ
deriving DecidableEq

/-- The site's state (`State` dataclass). `wrong_guesses` is a Python int,
modelled as `ℤ`. -/
structure State where
  name : String
  word : String
  guessed_letters : List String
  wrong_guesses : ℤ
  previous_games : List GameResult
deriving DecidableEq

/-- The three pages `check_guess` can return (`win_screen`, `lose_screen`,
`game_page`); page contents are out of scope, only which page is chosen. -/
inductive PageKind where
  | game
  | win
  | lose
deriving DecidableEq

/- ### Gameplay constants (from `src/main.py`) -/

def MAX_GUESSES : ℤ := 6

/- ### Small Python-semantics helpers -/

/-- A one-character Python string. -/
def charStr (c : Char) : String := ⟨[c]⟩

/-- Python `string.ascii_uppercase`, as the list of its 26 one-character strings. -/
def ascii_uppercase : List String := "ABCDEFGHIJKLMNOPQRSTUVWXYZ".toList.map charStr

/-- Python `str.upper()` on ASCII input: uppercase each character. -/
def pyUpper (s : String) : String := ⟨s.toList.map Char.toUpper⟩

/-- Bool test used by `strIn`: whether `needle` occurs as a contiguous
sublist starting at some position of the second list. -/
def strIn (needle : List Char) : List Char → Bool
  | [] => needle.isEmpty
  | c :: t => needle.isPrefixOf (c :: t) || strIn needle t

/-- Python `needle in haystack` on strings: substring containment. -/
def pyInStr (needle haystack : String) : Bool := strIn needle.toList haystack.toList

/-- One step of insertion sort on strings, ascending. -/
def insertStr (x : String) : List String → List String
  | [] => [x]
  | y :: ys => if x ≤ y then x :: y :: ys else y :: insertStr x ys

/-- Python `list.sort()` on a list of strings (ascending lexicographic),
as insertion sort. -/
def pySort : List String → List String
  | [] => []
  | x :: xs => insertStr x (pySort xs)

/- ### Game-flow functions (from `src/main.py`; identical in `src/hangman.py`) -/

/-- Function `is_valid_guess` from the source: the guess is a member of the list of
uppercase letters not yet guessed. -/
def is_valid_guess (guessed_letters : List String) (guess : String) : Bool :=
  let valid_letters := ascii_uppercase.filter (fun l => !(guessed_letters.contains l))
  valid_letters.contains guess

/-- Function `has_won` from the source: every letter of the word has been guessed. -/
def has_won (state : State) : Bool :=
  state.word.toList.all (fun letter => state.guessed_letters.contains (charStr letter))

/-- Function `has_lost` from the source: the wrong-guess count equals `MAX_GUESSES`. -/
def has_lost (state : State) : Bool :=
  state.wrong_guesses == MAX_GUESSES

/-- Function `reset` from the source: clears `word`, `guessed_letters` and
`wrong_guesses`; the other fields are untouched. -/
def reset (state : State) : State :=
  { state with word := "", guessed_letters := [], wrong_guesses := 0 }

/-- Function `check_guess` from `src/main.py`: uppercase the guess; if valid, append
it to the guessed letters, sort them, and bump `wrong_guesses` when the
guess does not occur in the word; then pick the page from the updated
state. -/
def check_guess (state : State) (guess : String) : State × PageKind :=
  let g := pyUpper guess
  let state1 :=
    if is_valid_guess state.guessed_letters g then
      let gl := pySort (state.guessed_letters ++ [g])
      let wrong :=
        if pyInStr g state.word then state.wrong_guesses else state.wrong_guesses + 1
      { state with guessed_letters := gl, wrong_guesses := wrong }
    else
      state
  if has_won state1 then (state1, PageKind.win)
  else if has_lost state1 then (state1, PageKind.lose)
  else (state1, PageKind.game)

/- ### Graphics constants (from `src/main.py`) -/

def IMAGE_WIDTH : ℤ := 500
def IMAGE_HEIGHT : ℤ := 400
def IMAGE_SIZE : ℤ × ℤ := (IMAGE_WIDTH, IMAGE_HEIGHT)

def GALLOWS_LINE_THICKNESS : ℕ := 5
def GALLOWS_BASE_XCENTER : ℤ := IMAGE_WIDTH - 100
def GALLOWS_BASE_YPOS : ℤ := IMAGE_HEIGHT - 100
def GALLOWS_BASE_LENGTH_LEFT : ℤ := 67
def GALLOWS_BASE_LENGTH_RIGHT : ℤ := 67
def GALLOWS_POST_LENGTH : ℤ := 267
def GALLOWS_CROSSBEAM_LENGTH : ℤ := 133
def GALLOWS_ROPE_LENGTH : ℤ := 33
def GALLOWS_SUPPORT_SIZE : ℤ := 33

/-- The colors the program draws with, by their Pillow color names. -/
inductive Color where
  | white
  | black
  | lightgray
  | tomato
deriving DecidableEq

def HANGMAN_SILHOUETTE_COLOR : Color := Color.lightgray
def HANGMAN_SOLID_COLOR : Color := Color.tomato
def HANGMAN_LINE_THICKNESS : ℕ := 5
def HANGMAN_XCENTER : ℤ := GALLOWS_BASE_XCENTER - GALLOWS_CROSSBEAM_LENGTH
def HANGMAN_YTOP : ℤ := GALLOWS_BASE_YPOS - GALLOWS_POST_LENGTH + GALLOWS_ROPE_LENGTH
def HANGMAN_HEAD_RADIUS : ℤ := 26
def HANGMAN_MOUTH_YPOS : ℤ := HANGMAN_YTOP + HANGMAN_HEAD_RADIUS + 8
def HANGMAN_MOUTH_RADIUS : ℤ := 8
def HANGMAN_TORSO_TOP : ℤ := HANGMAN_YTOP + 2 * HANGMAN_HEAD_RADIUS
def HANGMAN_TORSO_LENGTH : ℤ := 100
def HANGMAN_ARM_TOP : ℤ := HANGMAN_TORSO_TOP + 16
def HANGMAN_ARM_LENGTH : ℤ := 33
def HANGMAN_LEG_TOP : ℤ := HANGMAN_TORSO_TOP + HANGMAN_TORSO_LENGTH
def HANGMAN_LEG_LENGTH : ℤ := 33

def SUNGLASSES_YPOS : ℤ := HANGMAN_YTOP + HANGMAN_HEAD_RADIUS - 5
def SUNGLASSES_BRIDGE_RADIUS : ℤ := 3
def SUNGLASSES_LENS_WIDTH : ℤ := 16
def SUNGLASSES_LENS_HEIGHT : ℤ := 16
def SUNGLASSES_FRAME_RADIUS : ℤ := SUNGLASSES_BRIDGE_RADIUS + SUNGLASSES_LENS_WIDTH + 3

def WORD_COLOR : Color := Color.tomato
def WORD_LEFT_PAD : ℤ := 33
def LETTER_BLANK_THICKNESS : ℕ := 4
def LETTER_WIDTH : ℤ := 33
def LETTER_SPACING : ℤ := 17
def LETTER_BLANK_YPOS : ℤ := IMAGE_HEIGHT - 33

def NUM_FRAMES : ℕ := 32
def FRAME_DURATION : ℕ := 50
def LETTER_WAVE_HEIGHT : ℕ := 9
def LETTER_WAVE_DELAY : ℕ := 3

/- ### Draw operations and frames

A frame is modelled as the structured record of every Pillow draw call
`make_animation_frame` issues, with fields in draw order. -/

/-- A `draw.line` call: its point list, fill color and stroke width. -/
structure LineOp where
  pts : List (ℤ × ℤ)
  fill : Color
  width : ℕ
deriving DecidableEq

/-- A `draw.circle` call. -/
structure CircleOp where
  center : ℤ × ℤ
  radius : ℤ
  outline : Color
  width : ℕ
deriving DecidableEq

/-- A `draw.chord` call (the sunglasses lenses); the bounding box uses
halved lens heights, hence rational coordinates. `stop` is Pillow's `end`
angle. -/
structure ChordOp where
  bbox : (ℚ × ℚ) × (ℚ × ℚ)
  start : ℕ
  stop : ℕ
  fill : Color
deriving DecidableEq

/-- A `draw.text` call (a guessed letter glyph); the x anchor sits at the
blank's midpoint, hence rational. -/
structure TextOp where
  x : ℚ
  y : ℤ
  text : Char
  fill : Color
  anchor : String
  stroke_width : ℕ
  font_size : ℤ
deriving DecidableEq

/-- What one loop iteration draws for one letter position: the blank
segment, and the glyph when the letter was guessed. -/
structure LetterCell where
  blank : LineOp
  glyph : Option TextOp
deriving DecidableEq

/-- A rendered frame: canvas size and background plus every draw call of
`make_animation_frame`, fields in draw order. -/
structure Frame where
  size : ℤ × ℤ
  background : Color
  gallows : LineOp
  left_arm : LineOp
  right_arm : LineOp
  left_leg : LineOp
  right_leg : LineOp
  torso : LineOp
  head : CircleOp
  mouth : LineOp
  sunglasses_bridge : LineOp
  left_lens : ChordOp
  right_lens : ChordOp
  letters : List LetterCell

/-- Python runtime failures the embedded code can raise, plus the
spec's distinguished `InvalidInput` failure (which the source never
raises — it appears here only so the spec's claim is statable). -/
inductive PyErr where
  | indexError
  | invalidInput
deriving DecidableEq

/-- Python list indexing `l[i]` for nonnegative `i`: `IndexError` when out
of range. -/
def pyIndex {α : Type} (l : List α) (i : ℕ) : Except PyErr α :=
  if h : i < l.length then Except.ok (l.get ⟨i, h⟩) else Except.error PyErr.indexError

/-- Python `[color] * n` (empty for `n ≤ 0`). -/
def pyListMul (c : Color) (n : ℤ) : List Color := List.replicate n.toNat c

/-- The `body_part_colors` list of `make_animation_frame`:
`[HANGMAN_SOLID_COLOR] * wrong_guesses + [HANGMAN_SILHOUETTE_COLOR] * (MAX_GUESSES - wrong_guesses)`. -/
def body_part_colors (wrong_guesses : ℤ) : List Color :=
  pyListMul HANGMAN_SOLID_COLOR wrong_guesses ++
    pyListMul HANGMAN_SILHOUETTE_COLOR (MAX_GUESSES - wrong_guesses)

/- ### The letter row (the only frame-dependent part) -/

/-- The wave phase `(math.pi * 2 / NUM_FRAMES) * (frame_num + i * LETTER_WAVE_DELAY)`,
with Python floats idealized as reals. -/
noncomputable def wave_func_pos (frame_num i : ℕ) : ℝ :=
  (Real.pi * 2 / (NUM_FRAMES : ℝ)) * ((frame_num : ℝ) + (i : ℝ) * (LETTER_WAVE_DELAY : ℝ))

/-- The value `LETTER_WAVE_HEIGHT * math.sin(wave_func_pos)`. -/
noncomputable def wave_height_adjustment (frame_num i : ℕ) : ℝ :=
  (LETTER_WAVE_HEIGHT : ℝ) * Real.sin (wave_func_pos frame_num i)

/-- The value `LETTER_BLANK_YPOS - round(wave_height_adjustment)`: the integer y
position of letter `i`'s blank at frame `frame_num`. -/
noncomputable def adjusted_letter_ypos (frame_num i : ℕ) : ℤ :=
  LETTER_BLANK_YPOS - round (wave_height_adjustment frame_num i)

/-- One iteration of the letters-and-blanks loop, at enumeration entry
`p = (i, letter)`. -/
noncomputable def letterCell (state : State) (frame_num : ℕ) (p : ℕ × Char) : LetterCell :=
  let letter_start_pos : ℤ := WORD_LEFT_PAD + (p.1 : ℤ) * (LETTER_WIDTH + LETTER_SPACING)
  let y := adjusted_letter_ypos frame_num p.1
  { blank := { pts := [(letter_start_pos, y), (letter_start_pos + LETTER_WIDTH, y)],
               fill := Color.black, width := LETTER_BLANK_THICKNESS },
    glyph :=
      if state.guessed_letters.contains (charStr p.2) then
        some { x := (letter_start_pos : ℚ) + (1 : ℚ) / 2 * (LETTER_WIDTH : ℚ),
               y := y, text := p.2, fill := WORD_COLOR, anchor := "md",
               stroke_width := 1, font_size := LETTER_WIDTH }
      else none }

/-- The whole `for i, letter in enumerate(state.word)` loop. -/
noncomputable def lettersRow (state : State) (frame_num : ℕ) : List LetterCell :=
  state.word.toList.enum.map (letterCell state frame_num)

/- ### The frame renderer -/

/-- Function `make_animation_frame` from `src/main.py`: builds the blank canvas,
draws the gallows polyline, computes `body_part_colors`, draws the body
parts (each color coming from an indexing of that list, in source order),
then the letter row.  Every Python list indexing is the fallible
`pyIndex`. -/
noncomputable def make_animation_frame (state : State) (frame_num : ℕ) :
    Except PyErr Frame :=
  Except.bind (pyIndex (body_part_colors state.wrong_guesses) 2) fun leftArmFill =>
  Except.bind (pyIndex (body_part_colors state.wrong_guesses) 3) fun rightArmFill =>
  Except.bind (pyIndex (body_part_colors state.wrong_guesses) 4) fun leftLegFill =>
  Except.bind (pyIndex (body_part_colors state.wrong_guesses) 5) fun rightLegFill =>
  Except.bind (pyIndex (body_part_colors state.wrong_guesses) 1) fun torsoFill =>
  Except.bind (pyIndex (body_part_colors state.wrong_guesses) 0) fun headOutline =>
  Except.bind (pyIndex (body_part_colors state.wrong_guesses) 0) fun mouthFill =>
  Except.bind (pyIndex (body_part_colors state.wrong_guesses) 0) fun bridgeFill =>
  Except.bind (pyIndex (body_part_colors state.wrong_guesses) 0) fun leftLensFill =>
  Except.bind (pyIndex (body_part_colors state.wrong_guesses) 0) fun rightLensFill =>
  Except.ok
    { size := IMAGE_SIZE
      background := Color.white
      gallows :=
        { pts :=
            [(GALLOWS_BASE_XCENTER - GALLOWS_BASE_LENGTH_LEFT, GALLOWS_BASE_YPOS),
             (GALLOWS_BASE_XCENTER + GALLOWS_BASE_LENGTH_RIGHT, GALLOWS_BASE_YPOS),
             (GALLOWS_BASE_XCENTER, GALLOWS_BASE_YPOS),
             (GALLOWS_BASE_XCENTER, GALLOWS_BASE_YPOS - GALLOWS_POST_LENGTH),
             (GALLOWS_BASE_XCENTER, GALLOWS_BASE_YPOS - GALLOWS_POST_LENGTH + GALLOWS_SUPPORT_SIZE),
             (GALLOWS_BASE_XCENTER - GALLOWS_SUPPORT_SIZE, GALLOWS_BASE_YPOS - GALLOWS_POST_LENGTH),
             (GALLOWS_BASE_XCENTER, GALLOWS_BASE_YPOS - GALLOWS_POST_LENGTH),
             (HANGMAN_XCENTER, GALLOWS_BASE_YPOS - GALLOWS_POST_LENGTH),
             (HANGMAN_XCENTER, HANGMAN_YTOP)]
          fill := Color.black, width := GALLOWS_LINE_THICKNESS }
      left_arm :=
        { pts := [(HANGMAN_XCENTER, HANGMAN_ARM_TOP),
                  (HANGMAN_XCENTER - HANGMAN_ARM_LENGTH, HANGMAN_ARM_TOP + HANGMAN_ARM_LENGTH)]
          fill := leftArmFill, width := HANGMAN_LINE_THICKNESS + 1 }
      right_arm :=
        { pts := [(HANGMAN_XCENTER, HANGMAN_ARM_TOP),
                  (HANGMAN_XCENTER + HANGMAN_ARM_LENGTH, HANGMAN_ARM_TOP + HANGMAN_ARM_LENGTH)]
          fill := rightArmFill, width := HANGMAN_LINE_THICKNESS + 1 }
      left_leg :=
        { pts := [(HANGMAN_XCENTER, HANGMAN_LEG_TOP),
                  (HANGMAN_XCENTER - HANGMAN_LEG_LENGTH, HANGMAN_LEG_TOP + HANGMAN_LEG_LENGTH)]
          fill := leftLegFill, width := HANGMAN_LINE_THICKNESS + 1 }
      right_leg :=
        { pts := [(HANGMAN_XCENTER, HANGMAN_LEG_TOP),
                  (HANGMAN_XCENTER + HANGMAN_LEG_LENGTH, HANGMAN_LEG_TOP + HANGMAN_LEG_LENGTH)]
          fill := rightLegFill, width := HANGMAN_LINE_THICKNESS + 1 }
      torso :=
        { pts := [(HANGMAN_XCENTER, HANGMAN_TORSO_TOP),
                  (HANGMAN_XCENTER, HANGMAN_TORSO_TOP + HANGMAN_TORSO_LENGTH)]
          fill := torsoFill, width := HANGMAN_LINE_THICKNESS }
      head :=
        { center := (HANGMAN_XCENTER, HANGMAN_YTOP + HANGMAN_HEAD_RADIUS)
          radius := HANGMAN_HEAD_RADIUS, outline := headOutline
          width := HANGMAN_LINE_THICKNESS }
      mouth :=
        { pts := [(HANGMAN_XCENTER - HANGMAN_MOUTH_RADIUS, HANGMAN_MOUTH_YPOS),
                  (HANGMAN_XCENTER + HANGMAN_MOUTH_RADIUS, HANGMAN_MOUTH_YPOS)]
          fill := mouthFill, width := 2 }
      sunglasses_bridge :=
        { pts := [(HANGMAN_XCENTER - SUNGLASSES_FRAME_RADIUS, SUNGLASSES_YPOS),
                  (HANGMAN_XCENTER + SUNGLASSES_FRAME_RADIUS, SUNGLASSES_YPOS)]
          fill := bridgeFill, width := 2 }
      left_lens :=
        { bbox := ((((HANGMAN_XCENTER - SUNGLASSES_BRIDGE_RADIUS - SUNGLASSES_LENS_WIDTH : ℤ) : ℚ),
                    ((SUNGLASSES_YPOS : ℚ) - (SUNGLASSES_LENS_HEIGHT : ℚ) / 2)),
                   (((HANGMAN_XCENTER - SUNGLASSES_BRIDGE_RADIUS : ℤ) : ℚ),
                    ((SUNGLASSES_YPOS : ℚ) + (SUNGLASSES_LENS_HEIGHT : ℚ) / 2)))
          start := 0, stop := 180, fill := leftLensFill }
      right_lens :=
        { bbox := ((((HANGMAN_XCENTER + SUNGLASSES_BRIDGE_RADIUS : ℤ) : ℚ),
                    ((SUNGLASSES_YPOS : ℚ) - (SUNGLASSES_LENS_HEIGHT : ℚ) / 2)),
                   (((HANGMAN_XCENTER + SUNGLASSES_BRIDGE_RADIUS + SUNGLASSES_LENS_WIDTH : ℤ) : ℚ),
                    ((SUNGLASSES_YPOS : ℚ) + (SUNGLASSES_LENS_HEIGHT : ℚ) / 2)))
          start := 0, stop := 180, fill := rightLensFill }
      letters := lettersRow state frame_num }

/-- The color `body_part_colors` yields at slot `p` (with an arbitrary
default, never reached at in-range indices). Used to spell out the frame
`make_animation_frame` returns. -/
def colorAt (k : ℤ) (p : ℕ) : Color := (body_part_colors k).getD p Color.black

/-- The frame-independent part of the frame `make_animation_frame`
returns: everything but the letter row (left empty here). -/
noncomputable def frameBase (state : State) : Frame :=
  { size := IMAGE_SIZE
    background := Color.white
    gallows :=
      { pts :=
          [(GALLOWS_BASE_XCENTER - GALLOWS_BASE_LENGTH_LEFT, GALLOWS_BASE_YPOS),
           (GALLOWS_BASE_XCENTER + GALLOWS_BASE_LENGTH_RIGHT, GALLOWS_BASE_YPOS),
           (GALLOWS_BASE_XCENTER, GALLOWS_BASE_YPOS),
           (GALLOWS_BASE_XCENTER, GALLOWS_BASE_YPOS - GALLOWS_POST_LENGTH),
           (GALLOWS_BASE_XCENTER, GALLOWS_BASE_YPOS - GALLOWS_POST_LENGTH + GALLOWS_SUPPORT_SIZE),
           (GALLOWS_BASE_XCENTER - GALLOWS_SUPPORT_SIZE, GALLOWS_BASE_YPOS - GALLOWS_POST_LENGTH),
           (GALLOWS_BASE_XCENTER, GALLOWS_BASE_YPOS - GALLOWS_POST_LENGTH),
           (HANGMAN_XCENTER, GALLOWS_BASE_YPOS - GALLOWS_POST_LENGTH),
           (HANGMAN_XCENTER, HANGMAN_YTOP)]
        fill := Color.black, width := GALLOWS_LINE_THICKNESS }
    left_arm :=
      { pts := [(HANGMAN_XCENTER, HANGMAN_ARM_TOP),
                (HANGMAN_XCENTER - HANGMAN_ARM_LENGTH, HANGMAN_ARM_TOP + HANGMAN_ARM_LENGTH)]
        fill := colorAt state.wrong_guesses 2, width := HANGMAN_LINE_THICKNESS + 1 }
    right_arm :=
      { pts := [(HANGMAN_XCENTER, HANGMAN_ARM_TOP),
                (HANGMAN_XCENTER + HANGMAN_ARM_LENGTH, HANGMAN_ARM_TOP + HANGMAN_ARM_LENGTH)]
        fill := colorAt state.wrong_guesses 3, width := HANGMAN_LINE_THICKNESS + 1 }
    left_leg :=
      { pts := [(HANGMAN_XCENTER, HANGMAN_LEG_TOP),
                (HANGMAN_XCENTER - HANGMAN_LEG_LENGTH, HANGMAN_LEG_TOP + HANGMAN_LEG_LENGTH)]
        fill := colorAt state.wrong_guesses 4, width := HANGMAN_LINE_THICKNESS + 1 }
    right_leg :=
      { pts := [(HANGMAN_XCENTER, HANGMAN_LEG_TOP),
                (HANGMAN_XCENTER + HANGMAN_LEG_LENGTH, HANGMAN_LEG_TOP + HANGMAN_LEG_LENGTH)]
        fill := colorAt state.wrong_guesses 5, width := HANGMAN_LINE_THICKNESS + 1 }
    torso :=
      { pts := [(HANGMAN_XCENTER, HANGMAN_TORSO_TOP),
                (HANGMAN_XCENTER, HANGMAN_TORSO_TOP + HANGMAN_TORSO_LENGTH)]
        fill := colorAt state.wrong_guesses 1, width := HANGMAN_LINE_THICKNESS }
    head :=
      { center := (HANGMAN_XCENTER, HANGMAN_YTOP + HANGMAN_HEAD_RADIUS)
        radius := HANGMAN_HEAD_RADIUS, outline := colorAt state.wrong_guesses 0
        width := HANGMAN_LINE_THICKNESS }
    mouth :=
      { pts := [(HANGMAN_XCENTER - HANGMAN_MOUTH_RADIUS, HANGMAN_MOUTH_YPOS),
                (HANGMAN_XCENTER + HANGMAN_MOUTH_RADIUS, HANGMAN_MOUTH_YPOS)]
        fill := colorAt state.wrong_guesses 0, width := 2 }
    sunglasses_bridge :=
      { pts := [(HANGMAN_XCENTER - SUNGLASSES_FRAME_RADIUS, SUNGLASSES_YPOS),
                (HANGMAN_XCENTER + SUNGLASSES_FRAME_RADIUS, SUNGLASSES_YPOS)]
        fill := colorAt state.wrong_guesses 0, width := 2 }
    left_lens :=
      { bbox := ((((HANGMAN_XCENTER - SUNGLASSES_BRIDGE_RADIUS - SUNGLASSES_LENS_WIDTH : ℤ) : ℚ),
                  ((SUNGLASSES_YPOS : ℚ) - (SUNGLASSES_LENS_HEIGHT : ℚ) / 2)),
                 (((HANGMAN_XCENTER - SUNGLASSES_BRIDGE_RADIUS : ℤ) : ℚ),
                  ((SUNGLASSES_YPOS : ℚ) + (SUNGLASSES_LENS_HEIGHT : ℚ) / 2)))
        start := 0, stop := 180, fill := colorAt state.wrong_guesses 0 }
    right_lens :=
      { bbox := ((((HANGMAN_XCENTER + SUNGLASSES_BRIDGE_RADIUS : ℤ) : ℚ),
                  ((SUNGLASSES_YPOS : ℚ) - (SUNGLASSES_LENS_HEIGHT : ℚ) / 2)),
                 (((HANGMAN_XCENTER + SUNGLASSES_BRIDGE_RADIUS + SUNGLASSES_LENS_WIDTH : ℤ) : ℚ),
                  ((SUNGLASSES_YPOS : ℚ) + (SUNGLASSES_LENS_HEIGHT : ℚ) / 2)))
        start := 0, stop := 180, fill := colorAt state.wrong_guesses 0 }
    letters := [] }

/-- The frame `make_animation_frame` returns (proved below in
`make_animation_frame_eq`): the static part plus the letter row for this
frame index. -/
noncomputable def frameGen (state : State) (frame_num : ℕ) : Frame :=
  { frameBase state with letters := lettersRow state frame_num }


/-- Sequential evaluation of a Python list comprehension whose element
expression can raise: the first failure propagates. -/
def listCompExcept {α β : Type} (f : α → Except PyErr β) : List α → Except PyErr (List β)
  | [] => Except.ok []
  | a :: as =>
    Except.bind (f a) fun b =>
      Except.bind (listCompExcept f as) fun bs => Except.ok (b :: bs)

/-- Function `make_animation` from the source:
`[make_animation_frame(state, i) for i in range(NUM_FRAMES)]`. -/
noncomputable def make_animation (state : State) : Except PyErr (List Frame) :=
  listCompExcept (make_animation_frame state) (List.range NUM_FRAMES)

/- ### The animation encoder -/

/-- A fixed numeric code per color, for serialization. -/
def colorCode : Color → ℕ
  | Color.white => 0
  | Color.black => 1
  | Color.lightgray => 2
  | Color.tomato => 3

/-- A fixed byte rendering of an integer (sign byte then magnitude). -/
def intBytes (z : ℤ) : List ℕ := [if 0 ≤ z then 0 else 1, z.natAbs]

/-- Modelled from the spec: a deterministic serialization of one frame's
content, standing in for the third-party image library's per-frame pixel
encoding (that library is not part of this repository; the spec requires
only that the byte stream be a pure function of the frames and
parameters). -/
def frameBytes (fr : Frame) : List ℕ :=
  [colorCode fr.background, fr.letters.length] ++
  (fr.letters.flatMap fun c =>
    (c.blank.pts.flatMap fun q => intBytes q.1 ++ intBytes q.2) ++ [colorCode c.blank.fill]) ++
  [colorCode fr.head.outline, colorCode fr.torso.fill,
   colorCode fr.left_arm.fill, colorCode fr.right_arm.fill,
   colorCode fr.left_leg.fill, colorCode fr.right_leg.fill]

/-- Modelled from the spec: the third-party library's multi-frame GIF
serialization, as invoked by `animation[0].save(...)` — header, screen
size, loop count, then each frame with its per-frame duration; a
deterministic pure function with no timestamp input. -/
def gif_bytes (first : Frame) (rest : List Frame) (duration loop : ℕ) : List ℕ :=
  [71, 73, 70, 56, 57, 97] ++ intBytes first.size.1 ++ intBytes first.size.2 ++
  [loop] ++ ((first :: rest).flatMap fun fr => duration :: frameBytes fr)

/-- The base64 alphabet. -/
def b64Char (n : ℕ) : Char :=
  "ABCDEFGHIJKLMNOPQRSTUVWXYZabcdefghijklmnopqrstuvwxyz0123456789+/".toList.getD n '='

/-- Standard base64 of a byte list, with padding. -/
def b64encodeList : List ℕ → List Char
  | [] => []
  | [a] => [b64Char (a / 4), b64Char (a % 4 * 16), '=', '=']
  | [a, b] => [b64Char (a / 4), b64Char (a % 4 * 16 + b / 16), b64Char (b % 16 * 4), '=']
  | a :: b :: c :: rest =>
    [b64Char (a / 4), b64Char (a % 4 * 16 + b / 16),
     b64Char (b % 16 * 4 + c / 64), b64Char (c % 64)] ++ b64encodeList rest

/-- Python `base64.b64encode(...).decode("utf-8")`. -/
def b64encode (bytes : List ℕ) : String := ⟨b64encodeList bytes⟩

/-- Function `generate_animation_uri` from the source: saves `animation[0]` with
`append_images=animation[1:]`, `duration=FRAME_DURATION`, `loop=0` into a
buffer, base64-encodes the bytes and prefixes the data-URI scheme. The
initial `animation[0]` indexing is the fallible `pyIndex`; no emptiness
check exists. -/
def generate_animation_uri (animation : List Frame) : Except PyErr String :=
  Except.bind (pyIndex animation 0) fun first =>
    Except.ok ("data:image/gif;base64," ++
      b64encode (gif_bytes first (animation.drop 1) FRAME_DURATION 0))

/- ### Well-formedness of a game state (the spec's §3 invariants) -/

/-- An uppercase ASCII letter. -/
def isUpperChar (c : Char) : Bool := 'A' ≤ c && c ≤ 'Z'

/-- A one-character uppercase ASCII string. -/
def isUpperLetterStr (l : String) : Bool := l.length == 1 && l.toList.all isUpperChar

/-- The spec's well-formed `GameState`: nonempty uppercase word, guessed
letters single uppercase strings, `wrong_guesses` in `[0, MAX_GUESSES]`. -/
def WellFormed (s : State) : Prop :=
  s.word ≠ "" ∧ s.word.toList.all isUpperChar = true ∧
  s.guessed_letters.all isUpperLetterStr = true ∧
  0 ≤ s.wrong_guesses ∧ s.wrong_guesses ≤ MAX_GUESSES

instance (s : State) : Decidable (WellFormed s) := by
  unfold WellFormed
  infer_instance

/-- Everything in a frame except the letter row: canvas, gallows and all
body-part draw calls (colors included). -/
def frameStatic (fr : Frame) :=
  (fr.size, fr.background, fr.gallows, fr.left_arm, fr.right_arm, fr.left_leg,
   fr.right_leg, fr.torso, fr.head, fr.mouth, fr.sunglasses_bridge,
   fr.left_lens, fr.right_lens)

/-- Everything in a letter cell except the wave-dependent y positions:
blank x coordinates, fill, width, and the glyph's x/character/color. -/
def letterStatic (c : LetterCell) : List ℤ × Color × ℕ × Option (ℚ × Char × Color) :=
  (c.blank.pts.map Prod.fst, c.blank.fill, c.blank.width,
   c.glyph.map (fun g => (g.x, g.text, g.fill)))

/- ### Claims C9 and C10 -/

/-- Claim C9: `reset` sets `word` to the empty string, `guessed_letters` to
the empty list and `wrong_guesses` to 0, and leaves `name` and
`previous_games` unchanged. -/
theorem claim9_reset (s : State) :
    (reset s).word = "" ∧ (reset s).guessed_letters = [] ∧
    (reset s).wrong_guesses = 0 ∧ (reset s).name = s.name ∧
    (reset s).previous_games = s.previous_games :=
  ⟨rfl, rfl, rfl, rfl, rfl⟩

/-- Claim C10: in `src/main.py`, when the uppercased guess is not valid,
`check_guess` leaves the state unchanged and picks the returned page from
the unchanged state. -/
theorem claim10_invalid_guess_ignored (s : State) (guess : String)
    (h : is_valid_guess s.guessed_letters (pyUpper guess) = false) :
    (check_guess s guess).1 = s ∧
    (check_guess s guess).2 =
      (if has_won s then PageKind.win
       else if has_lost s then PageKind.lose else PageKind.game) := by
  simp only [check_guess, h, if_false, Bool.false_eq_true]
  split
  · simp_all
  · split <;> simp_all

/-- Witness for C10: the concrete guess "a" against a state that already
guessed "A" is invalid and changes nothing. -/
theorem claim10_witness :
    is_valid_guess ["A"] (pyUpper "a") = false ∧
    ((check_guess ⟨"Bob", "DOG", ["A"], 1, []⟩ "a").1 = ⟨"Bob", "DOG", ["A"], 1, []⟩ ∧
     (check_guess ⟨"Bob", "DOG", ["A"], 1, []⟩ "a").2 =
       (if has_won ⟨"Bob", "DOG", ["A"], 1, []⟩ then PageKind.win
        else if has_lost ⟨"Bob", "DOG", ["A"], 1, []⟩ then PageKind.lose
        else PageKind.game)) :=
  ⟨by decide, claim10_invalid_guess_ignored ⟨"Bob", "DOG", ["A"], 1, []⟩ "a" (by decide)⟩

/- ### Renderer lemmas -/

lemma body_part_colors_length (k : ℤ) :
    (body_part_colors k).length = k.toNat + (6 - k).toNat := by
  simp [body_part_colors, pyListMul, MAX_GUESSES]

lemma six_le_body_part_colors_length (k : ℤ) : 6 ≤ (body_part_colors k).length := by
  rw [body_part_colors_length]; omega

lemma pyIndex_ok {α : Type} (l : List α) (i : ℕ) (d : α) (h : i < l.length) :
    pyIndex l i = Except.ok (l.getD i d) := by
  unfold pyIndex
  rw [dif_pos h]
  congr 1
  exact (List.getD_eq_get l d h).symm

/-- Lemma: `make_animation_frame` always succeeds, returning `frameGen`: the
body-part color list has length `≥ 6` whatever `wrong_guesses` is, so every
indexing is in bounds. -/
lemma make_animation_frame_eq (s : State) (f : ℕ) :
    make_animation_frame s f = Except.ok (frameGen s f) := by
  have h := six_le_body_part_colors_length s.wrong_guesses
  unfold make_animation_frame frameGen frameBase
  rw [pyIndex_ok _ 2 Color.black (by omega), pyIndex_ok _ 3 Color.black (by omega),
      pyIndex_ok _ 4 Color.black (by omega), pyIndex_ok _ 5 Color.black (by omega),
      pyIndex_ok _ 1 Color.black (by omega), pyIndex_ok _ 0 Color.black (by omega)]
  rfl

/-- For in-range `wrong_guesses`, slot `p` of the color list is the solid
color exactly when `p < wrong_guesses`. -/
lemma colorAt_spec (k : ℤ) (h0 : 0 ≤ k) (h6 : k ≤ 6) (p : ℕ) (hp : p < 6) :
    colorAt k p = if (p : ℤ) < k then HANGMAN_SOLID_COLOR else HANGMAN_SILHOUETTE_COLOR := by
  interval_cases k <;> interval_cases p <;> decide

/- ### Claim C1 -/

/-- Claim C1: for `wrong_guesses = k` in `[0, MAX_GUESSES]`, the body part
at position `p` of the order head, torso, left-arm, right-arm, left-leg,
right-leg is drawn in `HANGMAN_SOLID_COLOR` iff `p < k`, otherwise in
`HANGMAN_SILHOUETTE_COLOR`. -/
theorem claim1_body_part_colors (s : State) (f : ℕ)
    (h0 : 0 ≤ s.wrong_guesses) (h6 : s.wrong_guesses ≤ MAX_GUESSES) :
    ∃ fr, make_animation_frame s f = Except.ok fr ∧
      fr.head.outline =
        (if (0 : ℤ) < s.wrong_guesses then HANGMAN_SOLID_COLOR else HANGMAN_SILHOUETTE_COLOR) ∧
      fr.torso.fill =
        (if (1 : ℤ) < s.wrong_guesses then HANGMAN_SOLID_COLOR else HANGMAN_SILHOUETTE_COLOR) ∧
      fr.left_arm.fill =
        (if (2 : ℤ) < s.wrong_guesses then HANGMAN_SOLID_COLOR else HANGMAN_SILHOUETTE_COLOR) ∧
      fr.right_arm.fill =
        (if (3 : ℤ) < s.wrong_guesses then HANGMAN_SOLID_COLOR else HANGMAN_SILHOUETTE_COLOR) ∧
      fr.left_leg.fill =
        (if (4 : ℤ) < s.wrong_guesses then HANGMAN_SOLID_COLOR else HANGMAN_SILHOUETTE_COLOR) ∧
      fr.right_leg.fill =
        (if (5 : ℤ) < s.wrong_guesses then HANGMAN_SOLID_COLOR else HANGMAN_SILHOUETTE_COLOR) := by
  have h6' : s.wrong_guesses ≤ 6 := by simpa [MAX_GUESSES] using h6
  refine ⟨frameGen s f, make_animation_frame_eq s f, ?_, ?_, ?_, ?_, ?_, ?_⟩ <;>
    simpa using colorAt_spec s.wrong_guesses h0 h6' _ (by norm_num)

/-- Witness for C1 at `wrong_guesses = 4`. -/
theorem claim1_witness :
    ((0 : ℤ) ≤ 4 ∧ (4 : ℤ) ≤ MAX_GUESSES) ∧
    (∃ fr, make_animation_frame ⟨"", "DOG", [], 4, []⟩ 0 = Except.ok fr ∧
      fr.head.outline = (if (0 : ℤ) < 4 then HANGMAN_SOLID_COLOR else HANGMAN_SILHOUETTE_COLOR) ∧
      fr.torso.fill = (if (1 : ℤ) < 4 then HANGMAN_SOLID_COLOR else HANGMAN_SILHOUETTE_COLOR) ∧
      fr.left_arm.fill = (if (2 : ℤ) < 4 then HANGMAN_SOLID_COLOR else HANGMAN_SILHOUETTE_COLOR) ∧
      fr.right_arm.fill = (if (3 : ℤ) < 4 then HANGMAN_SOLID_COLOR else HANGMAN_SILHOUETTE_COLOR) ∧
      fr.left_leg.fill = (if (4 : ℤ) < 4 then HANGMAN_SOLID_COLOR else HANGMAN_SILHOUETTE_COLOR) ∧
      fr.right_leg.fill = (if (5 : ℤ) < 4 then HANGMAN_SOLID_COLOR else HANGMAN_SILHOUETTE_COLOR)) :=
  ⟨⟨by decide, by decide⟩,
   claim1_body_part_colors ⟨"", "DOG", [], 4, []⟩ 0 (by decide) (by decide)⟩

/- ### Claim C2 -/

/-- Claim C2: the per-letter vertical offset is
`round(LETTER_WAVE_HEIGHT * sin(2π/NUM_FRAMES * (f + i*LETTER_WAVE_DELAY)))`
subtracted from `LETTER_BLANK_YPOS`, and it is periodic in `f` with period
`NUM_FRAMES`. -/
theorem claim2_wave_offset (f i : ℕ) :
    adjusted_letter_ypos f i =
      LETTER_BLANK_YPOS -
        round ((LETTER_WAVE_HEIGHT : ℝ) *
          Real.sin (2 * Real.pi / (NUM_FRAMES : ℝ) *
            ((f : ℝ) + (i : ℝ) * (LETTER_WAVE_DELAY : ℝ)))) ∧
    adjusted_letter_ypos (f + NUM_FRAMES) i = adjusted_letter_ypos f i := by
  constructor
  · have harg : wave_func_pos f i =
        2 * Real.pi / (NUM_FRAMES : ℝ) * ((f : ℝ) + (i : ℝ) * (LETTER_WAVE_DELAY : ℝ)) := by
      unfold wave_func_pos; ring
    unfold adjusted_letter_ypos wave_height_adjustment
    rw [harg]
  · have harg : wave_func_pos (f + NUM_FRAMES) i = wave_func_pos f i + 2 * Real.pi := by
      unfold wave_func_pos NUM_FRAMES
      push_cast
      ring
    unfold adjusted_letter_ypos wave_height_adjustment
    rw [harg, Real.sin_add_two_pi]

/- ### Claim C3 (corrected) -/

/-- Counterexample to C3 as stated: on an empty frame list the encoder
fails with an uncaught `IndexError` from `animation[0]`, which is not the
distinguished `InvalidInput` failure. -/
theorem claim3_counterexample :
    generate_animation_uri [] = Except.error PyErr.indexError ∧
    PyErr.indexError ≠ PyErr.invalidInput :=
  ⟨rfl, by decide⟩

/-- C3 as amended: encoding an empty frame sequence fails, but with the
index error raised by evaluating `animation[0]` — there is no InvalidInput
check at the encoder's entry. -/
theorem claim3_empty_frames_fail :
    generate_animation_uri [] = Except.error PyErr.indexError := rfl

/- ### Claim C4 (corrected) -/

/-- Counterexample to C4 as stated: at `wrong_guesses = 7` (outside
`[0, MAX_GUESSES]`) the renderer does not surface an InvalidInput error —
it renders a frame successfully. -/
theorem claim4_counterexample :
    (∃ fr, make_animation_frame ⟨"", "DOG", [], 7, []⟩ 0 = Except.ok fr) ∧
    make_animation_frame ⟨"", "DOG", [], 7, []⟩ 0 ≠ Except.error PyErr.invalidInput := by
  constructor
  · exact ⟨frameGen ⟨"", "DOG", [], 7, []⟩ 0, make_animation_frame_eq _ 0⟩
  · rw [make_animation_frame_eq]
    simp

/-- C4 as amended: the renderer has no entry check at all — for
`wrong_guesses` outside `[0, MAX_GUESSES]` it neither raises nor clamps,
it just renders a frame (the color list simply has extra solid entries, or
only silhouette entries for negative counts). -/
theorem claim4_no_entry_check (s : State) (f : ℕ)
    (h : s.wrong_guesses < 0 ∨ MAX_GUESSES < s.wrong_guesses) :
    ∃ fr, make_animation_frame s f = Except.ok fr :=
  ⟨frameGen s f, make_animation_frame_eq s f⟩

/-- Witness for the amended C4 at `wrong_guesses = 7`. -/
theorem claim4_witness :
    ((7 : ℤ) < 0 ∨ MAX_GUESSES < 7) ∧
    (∃ fr, make_animation_frame ⟨"", "STINKY", [], 7, []⟩ 0 = Except.ok fr) :=
  ⟨Or.inr (by decide), claim4_no_entry_check ⟨"", "STINKY", [], 7, []⟩ 0 (Or.inr (by decide))⟩

/- ### Claim C5 -/

/-- Claim C5: on any well-formed state and in-range frame index the
renderer succeeds — the body-part color list has length 6 so every index
0..5 into it is in bounds, and a frame is returned. -/
theorem claim5_renders_ok (s : State) (f : ℕ) (h : WellFormed s) (hf : f < NUM_FRAMES) :
    (body_part_colors s.wrong_guesses).length = 6 ∧
    ∃ fr, make_animation_frame s f = Except.ok fr := by
  obtain ⟨-, -, -, h0, h6⟩ := h
  refine ⟨?_, frameGen s f, make_animation_frame_eq s f⟩
  rw [body_part_colors_length]
  simp only [MAX_GUESSES] at h6
  omega

/-- Witness for C5. -/
theorem claim5_witness :
    WellFormed ⟨"", "DOG", [], 0, []⟩ ∧ (0 : ℕ) < NUM_FRAMES ∧
    ((body_part_colors 0).length = 6 ∧
     ∃ fr, make_animation_frame ⟨"", "DOG", [], 0, []⟩ 0 = Except.ok fr) :=
  ⟨by decide, by decide,
   claim5_renders_ok ⟨"", "DOG", [], 0, []⟩ 0 (by decide) (by decide)⟩

/- ### Letter-row lemmas -/

lemma enumFrom_map_eq {β : Type} (f2 : ℕ × Char → β) (g : Char → β)
    (hfg : ∀ p, f2 p = g p.2) :
    ∀ (n : ℕ) (l : List Char), (List.enumFrom n l).map f2 = l.map g := by
  intro n l
  induction l generalizing n with
  | nil => rfl
  | cons a t ih => simp [List.enumFrom, hfg, ih]

lemma enum_map_eq {β : Type} (f2 : ℕ × Char → β) (g : Char → β)
    (hfg : ∀ p, f2 p = g p.2) (l : List Char) : l.enum.map f2 = l.map g := by
  simpa [List.enum] using enumFrom_map_eq f2 g hfg 0 l

lemma lettersRow_blank_map (s : State) (f : ℕ) :
    (lettersRow s f).map (fun c => (c.blank.fill, c.blank.width)) =
      s.word.toList.map (fun _ => (Color.black, LETTER_BLANK_THICKNESS)) := by
  unfold lettersRow
  rw [List.map_map]
  refine enum_map_eq ((fun c => (c.blank.fill, c.blank.width)) ∘ letterCell s f)
    (fun _ => (Color.black, LETTER_BLANK_THICKNESS)) (fun p => ?_) s.word.toList
  rfl

lemma lettersRow_glyph_map (s : State) (f : ℕ) :
    (lettersRow s f).map (fun c => (c.glyph).isSome) =
      s.word.toList.map (fun ch => s.guessed_letters.contains (charStr ch)) := by
  unfold lettersRow
  rw [List.map_map]
  refine enum_map_eq _ _ (fun p => ?_) _
  show ((letterCell s f p).glyph).isSome = s.guessed_letters.contains (charStr p.2)
  cases hc : s.guessed_letters.contains (charStr p.2) <;> simp_all [letterCell]

/- ### Claim C6 -/

/-- Claim C6: one blank per letter position, and the glyph at position `i`
is drawn iff the word's letter at `i` is a member of `guessed_letters`. -/
theorem claim6_blanks_and_glyphs (s : State) (f : ℕ) (h : WellFormed s) :
    ∃ fr, make_animation_frame s f = Except.ok fr ∧
      fr.letters.map (fun c => (c.blank.fill, c.blank.width)) =
        s.word.toList.map (fun _ => (Color.black, LETTER_BLANK_THICKNESS)) ∧
      fr.letters.map (fun c => (c.glyph).isSome) =
        s.word.toList.map (fun ch => s.guessed_letters.contains (charStr ch)) :=
  ⟨frameGen s f, make_animation_frame_eq s f,
   lettersRow_blank_map s f, lettersRow_glyph_map s f⟩

/-- Witness for C6: word "DOG" with "D" guessed. -/
theorem claim6_witness :
    WellFormed ⟨"", "DOG", ["D"], 0, []⟩ ∧
    (∃ fr, make_animation_frame ⟨"", "DOG", ["D"], 0, []⟩ 0 = Except.ok fr ∧
      fr.letters.map (fun c => (c.blank.fill, c.blank.width)) =
        "DOG".toList.map (fun _ => (Color.black, LETTER_BLANK_THICKNESS)) ∧
      fr.letters.map (fun c => (c.glyph).isSome) =
        "DOG".toList.map (fun ch => (["D"] : List String).contains (charStr ch))) :=
  ⟨by decide, claim6_blanks_and_glyphs ⟨"", "DOG", ["D"], 0, []⟩ 0 (by decide)⟩

/- ### Claim C7 -/

lemma listCompExcept_ok {α β : Type} (f : α → Except PyErr β) (g : α → β) (l : List α)
    (h : ∀ a ∈ l, f a = Except.ok (g a)) : listCompExcept f l = Except.ok (l.map g) := by
  induction l with
  | nil => rfl
  | cons a t ih =>
    simp only [listCompExcept, h a (List.mem_cons_self a t),
      ih (fun x hx => h x (List.mem_cons_of_mem a hx)), List.map_cons]
    rfl

/-- Claim C7: `make_animation` yields exactly `NUM_FRAMES` (= 32) frames,
and any two of them agree on everything except the wave-dependent y
positions of the letter row: canvas, gallows and all body-part coloring
(`frameStatic`), and the frame-independent parts of each letter cell
(`letterStatic`), are identical. -/
theorem claim7_animation (s : State) (h : WellFormed s) :
    ∃ frames, make_animation s = Except.ok frames ∧
      frames.length = NUM_FRAMES ∧ NUM_FRAMES = 32 ∧
      ∀ i j (hi : i < frames.length) (hj : j < frames.length),
        frameStatic (frames.get ⟨i, hi⟩) = frameStatic (frames.get ⟨j, hj⟩) ∧
        (frames.get ⟨i, hi⟩).letters.map letterStatic =
          (frames.get ⟨j, hj⟩).letters.map letterStatic := by
  refine ⟨(List.range NUM_FRAMES).map (frameGen s), ?_, by simp, rfl, ?_⟩
  · unfold make_animation
    exact listCompExcept_ok _ _ _ (fun a _ => make_animation_frame_eq s a)
  · intro i j hi hj
    have hi2 : ((List.range NUM_FRAMES).map (frameGen s)).get ⟨i, hi⟩ = frameGen s i := by
      simp
    have hj2 : ((List.range NUM_FRAMES).map (frameGen s)).get ⟨j, hj⟩ = frameGen s j := by
      simp
    rw [hi2, hj2]
    have hstat : ∀ n : ℕ, frameStatic (frameGen s n) = frameStatic (frameBase s) :=
      fun n => rfl
    have hlet : ∀ n : ℕ, (frameGen s n).letters.map letterStatic =
        s.word.toList.enum.map (letterStatic ∘ letterCell s n) := by
      intro n
      show (lettersRow s n).map letterStatic = _
      unfold lettersRow
      rw [List.map_map]
    refine ⟨(hstat i).trans (hstat j).symm, (hlet i).trans (.trans ?_ (hlet j).symm)⟩
    congr 1
    funext p
    show letterStatic (letterCell s i p) = letterStatic (letterCell s j p)
    cases hc : s.guessed_letters.contains (charStr p.2) <;>
      simp_all [letterCell, letterStatic]

/-- Witness for C7. -/
theorem claim7_witness :
    WellFormed ⟨"", "A", [], 0, []⟩ ∧
    (∃ frames, make_animation ⟨"", "A", [], 0, []⟩ = Except.ok frames ∧
      frames.length = NUM_FRAMES ∧ NUM_FRAMES = 32 ∧
      ∀ i j (hi : i < frames.length) (hj : j < frames.length),
        frameStatic (frames.get ⟨i, hi⟩) = frameStatic (frames.get ⟨j, hj⟩) ∧
        (frames.get ⟨i, hi⟩).letters.map letterStatic =
          (frames.get ⟨j, hj⟩).letters.map letterStatic) :=
  ⟨by decide, claim7_animation ⟨"", "A", [], 0, []⟩ (by decide)⟩

/- ### Claim C8 -/

/-- Claim C8: the encoder is deterministic — it is a pure function of the
frame sequence (the duration and loop count are the fixed constants the
source passes), with no timestamp or other environment input in its data
flow, so equal frame sequences give byte-identical data URIs. -/
theorem claim8_deterministic (a1 a2 : List Frame) (h1 : a1 ≠ []) (h2 : a1 = a2) :
    generate_animation_uri a1 = generate_animation_uri a2 := by
  rw [h2]

/-- Witness for C8 on a concrete one-frame animation. -/
theorem claim8_witness :
    ([frameGen ⟨"", "A", [], 0, []⟩ 0] ≠ ([] : List Frame)) ∧
    generate_animation_uri [frameGen ⟨"", "A", [], 0, []⟩ 0] =
      generate_animation_uri [frameGen ⟨"", "A", [], 0, []⟩ 0] :=
  ⟨by simp, claim8_deterministic _ _ (by simp) rfl⟩
